import Mathlib

/-!
Verification of the technician-ranking engine of the ai-technician-service
repository.  The Python sources under `models/technician_recommender.py`,
`models/database.py`, `models/dotnet_client.py` and `app.py` are shallowly
embedded: floats become `ℚ`, dictionaries become structures, and every data
provider operation (`get_available_technicians`, `get_technician_stats`,
`get_technician_current_workload`, `get_technician_reviews_avg`) returns
`Except PyErr _` so that a raised Python exception is an `Except.error`.
-/

namespace AITech

/-! ## Python-level primitives -/

/-- A raised Python exception, as far as the engine can observe one. -/
inductive PyErr where
  | attributeError (cls attr : String)
  | dbError (msg : String)
deriving Repr, DecidableEq

/-- `charsStartWith needle hay` : `needle` is a leading subsequence of `hay`
(character-exact, models Python string equality on a slice). -/
def charsStartWith : List Char → List Char → Bool
  | [], _ => true
  | _ :: _, [] => false
  | a :: as, b :: bs => a == b && charsStartWith as bs

/-- `charsHaveSub needle hay` : `needle` occurs contiguously inside `hay`. -/
def charsHaveSub (needle : List Char) : List Char → Bool
  | [] => charsStartWith needle []
  | b :: bs => charsStartWith needle (b :: bs) || charsHaveSub needle bs

/-- Python's `needle in haystack` on strings (substring containment). -/
def strIn (needle haystack : String) : Bool :=
  charsHaveSub needle.toList haystack.toList

/-- Python's `str.lower()` (ASCII case folding, as far as the engine's data
needs it). -/
def pyLower (s : String) : String :=
  String.mk (s.toList.map Char.toLower)

/-- Python's `str.strip()`: drop leading and trailing whitespace. -/
def pyStrip (s : String) : String :=
  String.mk
    (((s.toList.dropWhile Char.isWhitespace).reverse.dropWhile
        Char.isWhitespace).reverse)

/-- Splitting a character list at commas; the accumulator holds the current
chunk reversed. -/
def splitCommaAux : List Char → List Char → List (List Char)
  | [], acc => [acc.reverse]
  | c :: cs, acc =>
    if c == ',' then acc.reverse :: splitCommaAux cs []
    else splitCommaAux cs (c :: acc)

/-- Python's `str.split(',')` (note `"".split(',') == [""]`). -/
def pySplitComma (s : String) : List String :=
  (splitCommaAux s.toList []).map String.mk

/-- Python's `round(q, 2)`: round to two decimal places, ties to even
(banker's rounding), on the exact rational value. -/
def pyRound2 (q : ℚ) : ℚ :=
  let s := q * 100
  let fl : ℤ := ⌊s⌋
  let r : ℚ := s - fl
  let n : ℤ :=
    if r < 1/2 then fl
    else if 1/2 < r then fl + 1
    else if fl % 2 = 0 then fl else fl + 1
  (n : ℚ) / 100

/-- Equality of `Except` results is decidable componentwise; needed to
evaluate the engine on concrete inputs. -/
instance {ε α : Type} [DecidableEq ε] [DecidableEq α] :
    DecidableEq (Except ε α) := fun x y =>
  match x, y with
  | .ok a, .ok b => decidable_of_iff (a = b) (by simp)
  | .error a, .error b => decidable_of_iff (a = b) (by simp)
  | .ok _, .error _ => isFalse (by simp)
  | .error _, .ok _ => isFalse (by simp)

/-! ## Data model (`schemas/request.py`, rows returned by the providers) -/

/-- One requested service of the booking (`BookingServiceInfoDto`); only its
`category` is read by the engine. -/
structure Service where
  category : String
deriving Repr, DecidableEq

/-- Customer geo-location (`LocationDto`); accepted but never used by any
score. -/
structure Location where
  latitude : ℚ
  longitude : ℚ
deriving Repr, DecidableEq

/-- The `booking_data` dict handed to `TechnicianRecommender.recommend`;
only `services` and `location` are ever read by the scoring code. -/
structure Booking where
  services : List Service
  location : Option Location := none
deriving Repr, DecidableEq

/-- A candidate row as supplied by a provider's
`get_available_technicians`. -/
structure Technician where
  technicianId : String
  displayName : String
  email : String
  specialization : String
  rating : ℚ
deriving Repr, DecidableEq

/-- The aggregate row returned by `get_technician_stats`; `SuccessRate` is
`NULL` (here `none`) when the SQL `NULLIF` guard fires. -/
structure TechStats where
  totalBookings : ℕ
  completedBookings : ℕ
  successRate : Option ℚ
deriving Repr, DecidableEq

/-- The duck-typed `self.db` collaborator of `TechnicianRecommender`: the
four query operations, each able to raise. -/
structure DataProvider where
  get_available_technicians : Except PyErr (List Technician)
  get_technician_stats : String → Except PyErr (Option TechStats)
  get_technician_current_workload : String → Except PyErr ℕ
  get_technician_reviews_avg : String → Except PyErr ℚ

/-- Scoring weights (`settings.WEIGHT_*`). -/
structure Weights where
  specialization : ℚ
  performance : ℚ
  rating : ℚ
  availability : ℚ
deriving Repr, DecidableEq

/-- The defaults of `config.py`: 0.40, 0.30, 0.20, 0.10. -/
def defaultWeights : Weights :=
  { specialization := 40/100, performance := 30/100
    rating := 20/100, availability := 10/100 }

/-- The per-technician component scores (the dict built by
`_calculate_scores`). -/
structure ScoreVector where
  specialization : ℚ
  performance : ℚ
  rating : ℚ
  availability : ℚ
deriving Repr, DecidableEq

/-! ## `_calculate_specialization_score` -/

/-- The requested categories: lower-cased, stripped, empty ones dropped
(lines 174-178 of `technician_recommender.py`). -/
def requestedCategories (services : List Service) : List String :=
  (services.map fun s => pyStrip (pyLower s.category)).filter fun c => c ≠ ""

/-- The technician's tag list: `Specialization` lower-cased, split on commas,
stripped, empties dropped (lines 184-185). -/
def techSpecsList (t : Technician) : List String :=
  ((pySplitComma (pyLower t.specialization)).map pyStrip).filter fun s => s ≠ ""

/-- Line 194: the category matches when some tag contains it or is contained
in it. -/
def categoryMatches (specs : List String) (c : String) : Bool :=
  specs.any fun sp => strIn c sp || strIn sp c

/-- The intermediate `match_percentage` of lines 191-198, defined only on
the branch that reaches it (usable categories and a non-empty tag list). -/
def matchFraction (t : Technician) (services : List Service) : Option ℚ :=
  if services.isEmpty then none
  else if (requestedCategories services).isEmpty then none
  else if (techSpecsList t).isEmpty then none
  else some
    (((requestedCategories services).countP (categoryMatches (techSpecsList t)) : ℚ)
      / ((requestedCategories services).length : ℚ))

/-- The piecewise fraction-to-score rule of lines 200-206. -/
def fractionToScore (mp : ℚ) : ℚ :=
  if mp = 1 then 95/100
  else if 1/2 ≤ mp then 7/10 + mp * (2/10)
  else 1/2 + mp * (2/10)

/-- `_calculate_specialization_score` (lines 150-206). -/
def specializationScore (t : Technician) (services : List Service) : ℚ :=
  if services.isEmpty then 1/2
  else if (requestedCategories services).isEmpty then 1/2
  else if (techSpecsList t).isEmpty then 3/10
  else fractionToScore
    (((requestedCategories services).countP (categoryMatches (techSpecsList t)) : ℚ)
      / ((requestedCategories services).length : ℚ))

/-! ## The remaining component scores -/

/-- `_calculate_performance_score` (lines 208-242): stats fetch, new-technician
default, then success-rate/workload blend.  The workload is fetched only on
the non-default branch, exactly as in the source. -/
def calcPerformanceScore (db : DataProvider) (tid : String) : Except PyErr ℚ := do
  let stats ← db.get_technician_stats tid
  match stats with
  | none => pure (65/100)
  | some st =>
    if st.totalBookings = 0 then pure (65/100)
    else do
      let successRate : ℚ := st.successRate.getD (8/10)
      let w ← db.get_technician_current_workload tid
      let workloadScore : ℚ := max 0 (1 - (w : ℚ) / 10)
      pure (min (successRate * (6/10) + workloadScore * (4/10)) 1)

/-- `_calculate_rating_score` (lines 244-272): prefer a positive reviews
average over the profile rating, divide by 5, clamp. -/
def calcRatingScore (db : DataProvider) (t : Technician) : Except PyErr ℚ := do
  let reviewsAvg ← db.get_technician_reviews_avg t.technicianId
  let finalRating := if 0 < reviewsAvg then reviewsAvg else t.rating
  pure (min (finalRating / 5) 1)

/-- The pure workload-to-score staircase of
`_calculate_availability_score` (lines 301-308). -/
def availabilityScore (workload : ℕ) : ℚ :=
  if workload ≤ 2 then 1
  else if workload ≤ 5 then 9/10 - ((workload : ℚ) - 2) * (6/100)
  else if workload ≤ 10 then 6/10 - ((workload : ℚ) - 5) * (4/100)
  else max (2/10) (4/10 - ((workload : ℚ) - 10) * (2/100))

/-- `_calculate_availability_score` (lines 274-308): fetch the workload and
apply the staircase; the `location` argument is ignored by the source. -/
def calcAvailabilityScore (db : DataProvider) (tid : String)
    (location : Option Location) : Except PyErr ℚ := do
  let _ := location
  let w ← db.get_technician_current_workload tid
  pure (availabilityScore w)

/-- `_calculate_scores` (lines 130-148), in the source's evaluation order. -/
def calcScores (db : DataProvider) (t : Technician) (b : Booking) :
    Except PyErr ScoreVector := do
  let sp := specializationScore t b.services
  let pf ← calcPerformanceScore db t.technicianId
  let rt ← calcRatingScore db t
  let av ← calcAvailabilityScore db t.technicianId b.location
  pure { specialization := sp, performance := pf, rating := rt, availability := av }

/-- `_calculate_total_score` (lines 310-316): weighted sum in the weight
dict's insertion order, clamped to ≤ 1. -/
def totalScore (w : Weights) (s : ScoreVector) : ℚ :=
  min (s.specialization * w.specialization + s.performance * w.performance
      + s.rating * w.rating + s.availability * w.availability) 1

/-! ## Ranking and response construction (`recommend`, lines 32-128) -/

/-- One entry of `scored_technicians` (lines 70-77). -/
structure ScoredTech where
  technician_id : String
  technician_name : String
  email : String
  total_score : ℚ
  confidence : ℚ
  scores : ScoreVector
deriving Repr, DecidableEq

/-- Scoring one candidate: the body of the `try` block of lines 66-77.
Any provider exception raised inside is an `Except.error`. -/
def scoreTech (w : Weights) (db : DataProvider) (t : Technician) (b : Booking) :
    Except PyErr ScoredTech := do
  let scores ← calcScores db t b
  let total := totalScore w scores
  pure { technician_id := t.technicianId, technician_name := t.displayName
         email := t.email, total_score := total, confidence := total
         scores := scores }

/-- The `except ... continue` of lines 88-90: failed candidates are dropped,
successful ones kept in provider order. -/
def scoredPool (w : Weights) (db : DataProvider) (b : Booking)
    (techs : List Technician) : List ScoredTech :=
  techs.filterMap fun t => (scoreTech w db t b).toOption

/-- Stable descending insertion: `x` is placed before the first element whose
key does not exceed its own. -/
def insertByDesc {α : Type} (key : α → ℚ) (x : α) : List α → List α
  | [] => [x]
  | y :: ys => if key x < key y then y :: insertByDesc key x ys else x :: y :: ys

/-- Python's stable `list.sort(key=key, reverse=True)` (line 99): descending
by key, ties kept in original order. -/
def sortByDesc {α : Type} (key : α → ℚ) : List α → List α
  | [] => []
  | x :: xs => insertByDesc key x (sortByDesc key xs)

/-- The `reasons` label map of `_generate_reason` (lines 330-335), with
`dflt` standing for the `.get` default. -/
def reasonsGet (k dflt : String) : String :=
  if k = "specialization" then "excellent specialization match"
  else if k = "performance" then "strong performance history"
  else if k = "rating" then "high customer ratings"
  else if k = "availability" then "good availability"
  else dflt

/-- `scores.items()` in the dict's insertion order (see
`_calculate_scores`). -/
def scoreItems (s : ScoreVector) : List (String × ℚ) :=
  [("specialization", s.specialization), ("performance", s.performance),
   ("rating", s.rating), ("availability", s.availability)]

/-- `_generate_reason` (lines 318-341). -/
def generateReason (s : ScoreVector) : String :=
  match sortByDesc Prod.snd (scoreItems s) with
  | [] => "Best match based on "
  | top :: rest =>
    let parts :=
      match rest with
      | [] => [reasonsGet top.fst "best match"]
      | second :: _ =>
        if 7/10 < second.snd then
          [reasonsGet top.fst "best match", reasonsGet second.fst ""]
        else [reasonsGet top.fst "best match"]
    "Best match based on " ++ String.intercalate " and " parts

/-- `_get_workload_label` (lines 343-350). -/
def workloadLabel (performanceScore : ℚ) : String :=
  if 8/10 ≤ performanceScore then "light"
  else if 6/10 ≤ performanceScore then "moderate"
  else "heavy"

/-- One alternative of the response (lines 115-119). -/
structure Alternative where
  technician_id : String
  confidence : ℚ
  reason : String
deriving Repr, DecidableEq

/-- The `factors` block of the response (lines 122-127). -/
structure Factors where
  specialization_match : ℚ
  location_proximity : ℚ
  rating : ℚ
  workload : String
deriving Repr, DecidableEq

/-- The successful response dict of lines 110-128. -/
structure Recommendation where
  recommended_technician_id : String
  confidence : ℚ
  reason : String
  alternatives : List Alternative
  factors : Factors
deriving Repr, DecidableEq

/-- What `recommend` returns when it returns: either one of the two error
dicts (whose `recommended_technician_id` is `None`, hence carried only as a
message here) or the full response. -/
inductive RecommendOutcome where
  | errorResult (msg : String)
  | success (rec : Recommendation)
deriving Repr, DecidableEq

/-- The body of `recommend` after the candidate fetch of line 51
(lines 53-128).  The `[]` arm of the inner match is unreachable: sorting a
non-empty list yields a non-empty list. -/
def recommendCore (w : Weights) (db : DataProvider) (b : Booking)
    (technicians : List Technician) : RecommendOutcome :=
  if technicians.isEmpty then .errorResult "No available technicians found"
  else
    if (scoredPool w db b technicians).isEmpty then
      .errorResult "Failed to score technicians"
    else
      match sortByDesc ScoredTech.total_score (scoredPool w db b technicians) with
      | [] => .errorResult "Failed to score technicians"
      | best :: rest =>
        .success
          { recommended_technician_id := best.technician_id
            confidence := pyRound2 best.confidence
            reason := generateReason best.scores
            alternatives := (rest.take 2).map fun t =>
              { technician_id := t.technician_id
                confidence := pyRound2 t.confidence
                reason := generateReason t.scores }
            factors :=
              { specialization_match := pyRound2 best.scores.specialization
                location_proximity := pyRound2 best.scores.availability
                rating := pyRound2 best.scores.rating
                workload := workloadLabel best.scores.performance } }

/-- `TechnicianRecommender.recommend` (lines 32-128).  The candidate fetch of
line 51 sits outside any `try`, so its exception propagates to the caller. -/
def recommend (w : Weights) (db : DataProvider) (b : Booking) :
    Except PyErr RecommendOutcome := do
  let technicians ← db.get_available_technicians
  pure (recommendCore w db b technicians)

/-! ## The `DotNetClient` provider (`models/dotnet_client.py`) -/

/-- The method names bound inside the `class DotNetClient` body: only
`__init__` (line 12) and `_get_db_connection` (line 20).
`get_available_technicians` is defined at module level (line 29, column 0),
and `get_technician_stats`, `get_technician_current_workload`,
`get_technician_reviews_avg` and `close` are nested inside it after its
`return` (lines 77-133), so none of them lands in the class namespace. -/
def dotNetClientClassMethods : List String := ["__init__", "_get_db_connection"]

/-- The hardcoded list the module-level `get_available_technicians`
returns (lines 34-75). -/
def moduleLevelAvailableTechnicians : List Technician :=
  [ { technicianId := "tech-001", displayName := "أحمد محمد"
      email := "ahmed@test.com", specialization := "maintenance,brakes,engine"
      rating := 48/10 },
    { technicianId := "tech-002", displayName := "محمد علي"
      email := "mohamed@test.com", specialization := "engine,transmission"
      rating := 45/10 },
    { technicianId := "tech-003", displayName := "علي حسن"
      email := "ali@test.com", specialization := "brakes,suspension"
      rating := 42/10 },
    { technicianId := "tech-004", displayName := "خالد عمر"
      email := "khaled@test.com", specialization := "maintenance,engine"
      rating := 46/10 },
    { technicianId := "tech-005", displayName := "عمر سالم"
      email := "omar@test.com", specialization := "transmission,suspension"
      rating := 40/10 } ]

/-- Python attribute lookup on a `DotNetClient` instance: the method runs
only when its name is bound in the class body, otherwise `AttributeError`.
The `impl` argument is what the like-named function elsewhere in the module
would produce; it is irrelevant when the lookup fails. -/
def dotNetAttr {α : Type} (name : String) (impl : α) : Except PyErr α :=
  if dotNetClientClassMethods.contains name then .ok impl
  else .error (.attributeError "DotNetClient" name)

/-- The `DotNetClient` instance wired in by `app.py`'s lifespan, seen through
the four query operations. -/
def dotNetClientProvider : DataProvider where
  get_available_technicians :=
    dotNetAttr "get_available_technicians" moduleLevelAvailableTechnicians
  get_technician_stats := fun _ => dotNetAttr "get_technician_stats" none
  get_technician_current_workload := fun _ =>
    dotNetAttr "get_technician_current_workload" 0
  get_technician_reviews_avg := fun _ =>
    dotNetAttr "get_technician_reviews_avg" 0

/-! ## The `Database` provider (`models/database.py`) -/

/-- The observable state of a `Database` instance when
`get_available_technicians` runs: whether `connect()` succeeded, and what the
SQL query would yield if attempted (`Except.error` models a raised
`pyodbc.Error`). -/
structure DatabaseState where
  connected : Bool
  queryTechnicians : Except String (List Technician)
deriving Repr

/-- `Database.get_available_technicians` (lines 30-74): `[]` without a
connection, `[]` when the query raises, otherwise the fetched rows. -/
def database_get_available_technicians (st : DatabaseState) : List Technician :=
  if st.connected = false then []
  else
    match st.queryTechnicians with
    | .error _ => []
    | .ok ts => ts

/-- A `Database`-backed provider: the candidate fetch never raises (errors
are swallowed into `[]`); the three per-technician queries are kept
abstract. -/
def databaseProvider (st : DatabaseState)
    (stats : String → Except PyErr (Option TechStats))
    (wl : String → Except PyErr ℕ)
    (rv : String → Except PyErr ℚ) : DataProvider where
  get_available_technicians := .ok (database_get_available_technicians st)
  get_technician_stats := stats
  get_technician_current_workload := wl
  get_technician_reviews_avg := rv

/-! ## Spec-side reference definition and observation helpers -/

/-- The performance-score formula as the spec states it, §4.1 step 2: zero
recorded bookings (or absent stats) default to 0.65; otherwise blend the
success rate (weight 0.6, defaulting to 0.8 when undefined) with
`capacity = max(0, 1 − workload/10)` (weight 0.4), clamped to ≤ 1. -/
def performanceScoreSpec (stats : Option TechStats) (workload : ℕ) : ℚ :=
  match stats with
  | none => 65/100
  | some st =>
    if st.totalBookings = 0 then 65/100
    else
      min ((6/10) * st.successRate.getD (8/10)
          + (4/10) * max 0 (1 - (workload : ℚ) / 10)) 1

/-- The `location_proximity` factor of a successful outcome, if any. -/
def locationProximityOf : Except PyErr RecommendOutcome → Option ℚ
  | .ok (.success r) => some r.factors.location_proximity
  | _ => none

/-- The confidence of a successfully scored candidate, if any. -/
def confidenceOf : Except PyErr ScoredTech → Option ℚ
  | .ok s => some s.confidence
  | .error _ => none

/-! ## Concrete fixtures used to instantiate the theorems -/

/-- A technician whose tags cover the example booking. -/
def exTechA : Technician :=
  { technicianId := "tech-a", displayName := "Alice Fixer"
    email := "alice@example.com", specialization := "brakes,engine"
    rating := 48/10 }

/-- A technician whose tags miss the example booking's category. -/
def exTechB : Technician :=
  { technicianId := "tech-b", displayName := "Bob Wrench"
    email := "bob@example.com", specialization := "engine"
    rating := 5 }

/-- A technician with an empty `Specialization` column. -/
def noTagTech : Technician :=
  { technicianId := "tech-n", displayName := "Nia Notags"
    email := "nia@example.com", specialization := "", rating := 4 }

/-- A top-of-scale technician: full tag match with `exBooking`, perfect
success rate, idle, rating 5. -/
def perfectTech : Technician :=
  { technicianId := "tech-p", displayName := "Pat Perfect"
    email := "pat@example.com", specialization := "brakes", rating := 5 }

/-- A booking requesting one `Brakes` service. -/
def exBooking : Booking := { services := [{ category := "Brakes" }] }

/-- A well-behaved provider over `exTechA` and `exTechB`. -/
def exProvider : DataProvider where
  get_available_technicians := .ok [exTechA, exTechB]
  get_technician_stats := fun _ =>
    .ok (some { totalBookings := 10, completedBookings := 9
                successRate := some (9/10) })
  get_technician_current_workload := fun _ => .ok 1
  get_technician_reviews_avg := fun _ => .ok 0

/-- A provider holding only `perfectTech`, with perfect stats and zero
workload. -/
def perfectProvider : DataProvider where
  get_available_technicians := .ok [perfectTech]
  get_technician_stats := fun _ =>
    .ok (some { totalBookings := 12, completedBookings := 12
                successRate := some 1 })
  get_technician_current_workload := fun _ => .ok 0
  get_technician_reviews_avg := fun _ => .ok 0

/-- A provider whose per-technician queries all raise. -/
def failingStatsProvider : DataProvider where
  get_available_technicians := .ok [exTechA, exTechB]
  get_technician_stats := fun _ => .error (.dbError "stats query failed")
  get_technician_current_workload := fun _ =>
    .error (.dbError "workload query failed")
  get_technician_reviews_avg := fun _ => .error (.dbError "reviews query failed")

/-- A connected `Database` whose technician query raises `pyodbc.Error`. -/
def exFailedDB : DatabaseState :=
  { connected := true, queryTechnicians := .error "query failed" }

/-- The response `recommend` produces for `exProvider` and `exBooking`. -/
def exRecommendation : Recommendation :=
  { recommended_technician_id := "tech-a"
    confidence := 94/100
    reason := "Best match based on good availability and high customer ratings"
    alternatives :=
      [{ technician_id := "tech-b", confidence := 77/100
         reason :=
           "Best match based on high customer ratings and good availability" }]
    factors :=
      { specialization_match := 95/100, location_proximity := 1
        rating := 96/100, workload := "light" } }

/-! ## Helper lemmas -/

theorem except_ok_bind {ε α β : Type} (a : α) (f : α → Except ε β) :
    (Except.ok a >>= f) = f a := rfl

theorem except_error_bind {ε α β : Type} (e : ε) (f : α → Except ε β) :
    ((Except.error e : Except ε α) >>= f) = .error e := rfl

theorem except_pure_eq_ok {ε α : Type} (a : α) :
    (pure a : Except ε α) = .ok a := rfl

theorem countP_div_length_nonneg (p : String → Bool) (l : List String) :
    0 ≤ ((l.countP p : ℚ)) / (l.length : ℚ) := by
  positivity

theorem countP_div_length_le_one (p : String → Bool) (l : List String)
    (h : l ≠ []) : ((l.countP p : ℚ)) / (l.length : ℚ) ≤ 1 := by
  have hlen : 0 < l.length := List.length_pos.mpr h
  rw [div_le_one (by exact_mod_cast hlen)]
  exact_mod_cast List.countP_le_length (p := p) (l := l)

theorem fractionToScore_eq_095_iff (mp : ℚ) (h1 : mp ≤ 1) :
    fractionToScore mp = 95/100 ↔ mp = 1 := by
  unfold fractionToScore
  split_ifs with hEq hHalf
  · simp [hEq]
  · constructor
    · intro h; linarith
    · intro h; exact absurd h hEq
  · constructor
    · intro h; linarith
    · intro h; exact absurd h hEq

theorem half_le_fractionToScore (mp : ℚ) (h0 : 0 ≤ mp) :
    1/2 ≤ fractionToScore mp := by
  unfold fractionToScore
  split_ifs with h1 h2 <;> linarith

theorem specializationScore_eq_095_iff (t : Technician) (s : List Service) :
    specializationScore t s = 95/100 ↔ matchFraction t s = some 1 := by
  unfold specializationScore matchFraction
  split_ifs with h1 h2 h3
  · constructor <;> intro h <;> [linarith; exact absurd h (by simp)]
  · constructor <;> intro h <;> [linarith; exact absurd h (by simp)]
  · constructor <;> intro h <;> [linarith; exact absurd h (by simp)]
  · rw [Option.some_inj]
    exact fractionToScore_eq_095_iff _
      (countP_div_length_le_one _ _ (fun hn => h2 (by simp [hn])))

theorem specializationScore_noTags (t : Technician) (s : List Service)
    (h1 : techSpecsList t = []) (h2 : ¬(requestedCategories s).isEmpty) :
    specializationScore t s = 3/10 := by
  have hs : ¬s.isEmpty := by
    intro hse
    exact h2 (by simp [requestedCategories, List.isEmpty_iff.mp hse])
  unfold specializationScore
  simp [hs, h2, h1]

theorem specializationScore_floor (t : Technician) (s : List Service)
    (h : techSpecsList t ≠ [] ∨ (requestedCategories s).isEmpty) :
    1/2 ≤ specializationScore t s := by
  unfold specializationScore
  split_ifs with h1 h2 h3
  · norm_num
  · norm_num
  · rcases h with h | h
    · exact absurd (List.isEmpty_iff.mp h3) h
    · exact absurd h h2
  · exact half_le_fractionToScore _ (countP_div_length_nonneg _ _)

theorem filter_insertByDesc {α : Type} (key : α → ℚ) (q : ℚ) (x : α)
    (l : List α) :
    (insertByDesc key x l).filter (fun y => decide (key y = q)) =
      if key x = q then x :: l.filter (fun y => decide (key y = q))
      else l.filter (fun y => decide (key y = q)) := by
  induction l with
  | nil => by_cases h : key x = q <;> simp [insertByDesc, h]
  | cons y ys ih =>
    by_cases hxy : key x < key y
    · have hcons : insertByDesc key x (y :: ys) = y :: insertByDesc key x ys := by
        simp [insertByDesc, hxy]
      rw [hcons]
      by_cases hyq : key y = q
      · have hxq : key x ≠ q := by
          intro h
          rw [h, hyq] at hxy
          exact lt_irrefl q hxy
        simp [List.filter_cons, hyq, hxq, ih]
      · by_cases hxq : key x = q <;> simp [List.filter_cons, hyq, hxq, ih]
    · have hcons : insertByDesc key x (y :: ys) = x :: y :: ys := by
        simp [insertByDesc, hxy]
      rw [hcons]
      by_cases hxq : key x = q <;> simp [List.filter_cons, hxq]

theorem filter_sortByDesc {α : Type} (key : α → ℚ) (q : ℚ) (l : List α) :
    (sortByDesc key l).filter (fun y => decide (key y = q)) =
      l.filter (fun y => decide (key y = q)) := by
  induction l with
  | nil => rfl
  | cons x xs ih =>
    rw [show sortByDesc key (x :: xs) = insertByDesc key x (sortByDesc key xs)
          from rfl,
        filter_insertByDesc]
    by_cases h : key x = q <;> simp [List.filter_cons, h, ih]

theorem length_insertByDesc {α : Type} (key : α → ℚ) (x : α) (l : List α) :
    (insertByDesc key x l).length = l.length + 1 := by
  induction l with
  | nil => rfl
  | cons y ys ih => by_cases h : key x < key y <;> simp [insertByDesc, h, ih]

theorem length_sortByDesc {α : Type} (key : α → ℚ) (l : List α) :
    (sortByDesc key l).length = l.length := by
  induction l with
  | nil => rfl
  | cons x xs ih => simp [sortByDesc, length_insertByDesc, ih]

theorem availabilityScore_succ_le (w : ℕ) :
    availabilityScore (w + 1) ≤ availabilityScore w := by
  rcases Nat.lt_or_ge w 11 with h | h
  · interval_cases w <;> with_unfolding_all decide
  · have c1 : ¬(w + 1 ≤ 2) := by omega
    have c2 : ¬(w + 1 ≤ 5) := by omega
    have c3 : ¬(w + 1 ≤ 10) := by omega
    have c4 : ¬(w ≤ 2) := by omega
    have c5 : ¬(w ≤ 5) := by omega
    have c6 : ¬(w ≤ 10) := by omega
    simp only [availabilityScore, if_neg c1, if_neg c2, if_neg c3, if_neg c4,
      if_neg c5, if_neg c6]
    apply max_le_max le_rfl
    push_cast
    linarith

theorem availabilityScore_antitoneOn (w1 w2 : ℕ) (h : w1 ≤ w2) :
    availabilityScore w2 ≤ availabilityScore w1 := by
  induction w2 with
  | zero =>
    have h0 : w1 = 0 := by omega
    simp [h0]
  | succ n ih =>
    rcases Nat.lt_or_ge w1 (n + 1) with h2 | h2
    · exact le_trans (availabilityScore_succ_le n) (ih (by omega))
    · have he : w1 = n + 1 := by omega
      simp [he]

theorem except_toOption_eq_none {ε α : Type} (x : Except ε α) :
    x.toOption = none ↔ ∃ e, x = .error e := by
  cases x <;> simp [Except.toOption]

theorem scoredPool_eq_nil_iff (w : Weights) (db : DataProvider) (b : Booking)
    (techs : List Technician) :
    scoredPool w db b techs = [] ↔
      ∀ t ∈ techs, ∃ e, scoreTech w db t b = .error e := by
  unfold scoredPool
  rw [List.filterMap_eq_nil_iff]
  exact forall_congr' fun t => forall_congr' fun _ =>
    except_toOption_eq_none (scoreTech w db t b)

theorem sortByDesc_ne_nil {α : Type} (key : α → ℚ) (l : List α)
    (h : l ≠ []) : sortByDesc key l ≠ [] := by
  intro hs
  have hlen := length_sortByDesc key l
  rw [hs] at hlen
  exact h (List.length_eq_zero.mp hlen.symm)

theorem recommend_eq_core (w : Weights) (db : DataProvider) (b : Booking)
    (techs : List Technician) (hf : db.get_available_technicians = .ok techs) :
    recommend w db b = .ok (recommendCore w db b techs) := by
  show db.get_available_technicians >>=
      (fun ts => pure (recommendCore w db b ts)) = _
  rw [hf, except_ok_bind]
  rfl

theorem recommendCore_errorResult_iff (w : Weights) (db : DataProvider)
    (b : Booking) (techs : List Technician) :
    (∃ msg, recommendCore w db b techs = .errorResult msg) ↔
      (techs = [] ∨ ∀ t ∈ techs, ∃ e, scoreTech w db t b = .error e) := by
  unfold recommendCore
  by_cases h1 : techs.isEmpty
  · rw [if_pos h1]
    exact ⟨fun _ => Or.inl (List.isEmpty_iff.mp h1),
      fun _ => ⟨"No available technicians found", rfl⟩⟩
  · rw [if_neg h1]
    by_cases h2 : (scoredPool w db b techs).isEmpty
    · rw [if_pos h2]
      exact ⟨fun _ => Or.inr ((scoredPool_eq_nil_iff w db b techs).mp
          (List.isEmpty_iff.mp h2)),
        fun _ => ⟨"Failed to score technicians", rfl⟩⟩
    · rw [if_neg h2]
      have hne : scoredPool w db b techs ≠ [] := fun hh => h2 (by simp [hh])
      obtain ⟨best, rest, hbr⟩ : ∃ best rest,
          sortByDesc ScoredTech.total_score (scoredPool w db b techs) =
            best :: rest := by
        cases hsort : sortByDesc ScoredTech.total_score (scoredPool w db b techs) with
        | nil => exact absurd hsort (sortByDesc_ne_nil _ _ hne)
        | cons a l => exact ⟨a, l, rfl⟩
      rw [hbr]
      constructor
      · rintro ⟨msg, hmsg⟩
        exact RecommendOutcome.noConfusion hmsg
      · rintro (hnil | hall)
        · exact absurd (by simp [hnil]) h1
        · exact absurd ((scoredPool_eq_nil_iff w db b techs).mpr hall) hne

/-! ## Claim theorems -/

/-- C6: the availability score is a non-increasing function of workload:
for all workloads `w1 ≤ w2`, the score at `w2` does not exceed the score
at `w1`. -/
theorem availability_monotone (w1 w2 : ℕ) (h : w1 ≤ w2) :
    availabilityScore w2 ≤ availabilityScore w1 :=
  availabilityScore_antitoneOn w1 w2 h

/-- Witness for C6 at `w1 = 3`, `w2 = 7`. -/
theorem availability_monotone_witness :
    3 ≤ 7 ∧ availabilityScore 7 ≤ availabilityScore 3 :=
  ⟨by decide, availability_monotone 3 7 (by decide)⟩

/-- C7: ranking is stable.  The scored pool is built in the provider's list
order, and sorting it by total score descending preserves, for every score
value `q`, the original relative order of the candidates whose total score
is `q` — so among equal-scored technicians the one appearing earlier with
the provider is ranked first, which fixes both the recommended technician
and the order of alternatives. -/
theorem ranking_stable (w : Weights) (db : DataProvider) (b : Booking)
    (techs : List Technician) (q : ℚ) :
    (sortByDesc ScoredTech.total_score (scoredPool w db b techs)).filter
        (fun x => decide (x.total_score = q)) =
      (scoredPool w db b techs).filter (fun x => decide (x.total_score = q)) :=
  filter_sortByDesc ScoredTech.total_score q (scoredPool w db b techs)

/-- C8: for any score vector with components in `[0,1]` and any
non-negative weights (they may sum to more than 1), the total score lies
in `[0,1]`. -/
theorem total_score_unit_interval (w : Weights) (s : ScoreVector)
    (hw1 : 0 ≤ w.specialization) (hw2 : 0 ≤ w.performance)
    (hw3 : 0 ≤ w.rating) (hw4 : 0 ≤ w.availability)
    (h1 : 0 ≤ s.specialization) (_h1u : s.specialization ≤ 1)
    (h2 : 0 ≤ s.performance) (_h2u : s.performance ≤ 1)
    (h3 : 0 ≤ s.rating) (_h3u : s.rating ≤ 1)
    (h4 : 0 ≤ s.availability) (_h4u : s.availability ≤ 1) :
    0 ≤ totalScore w s ∧ totalScore w s ≤ 1 := by
  unfold totalScore
  refine ⟨le_min ?_ zero_le_one, min_le_right _ _⟩
  have m1 := mul_nonneg h1 hw1
  have m2 := mul_nonneg h2 hw2
  have m3 := mul_nonneg h3 hw3
  have m4 := mul_nonneg h4 hw4
  linarith

/-- Witness for C8 with weights `(1/2, 1/2, 1/2, 1/2)` (summing to 2) and
all component scores `1`. -/
theorem total_score_unit_interval_witness :
    (0:ℚ) ≤ 1/2 ∧ (0:ℚ) ≤ 1 ∧
    (0 ≤ totalScore ⟨1/2, 1/2, 1/2, 1/2⟩ ⟨1, 1, 1, 1⟩ ∧
      totalScore ⟨1/2, 1/2, 1/2, 1/2⟩ ⟨1, 1, 1, 1⟩ ≤ 1) :=
  ⟨by norm_num, by norm_num,
    total_score_unit_interval ⟨1/2, 1/2, 1/2, 1/2⟩ ⟨1, 1, 1, 1⟩
      (by norm_num) (by norm_num) (by norm_num) (by norm_num)
      (by norm_num) (by norm_num) (by norm_num) (by norm_num)
      (by norm_num) (by norm_num) (by norm_num) (by norm_num)⟩

theorem calcPerformanceScore_spec_eq (db : DataProvider) (tid : String)
    (stOpt : Option TechStats) (wl : ℕ)
    (h1 : db.get_technician_stats tid = .ok stOpt)
    (h2 : db.get_technician_current_workload tid = .ok wl) :
    calcPerformanceScore db tid = .ok (performanceScoreSpec stOpt wl) := by
  unfold calcPerformanceScore performanceScoreSpec
  rw [h1, except_ok_bind]
  cases stOpt with
  | none => rfl
  | some st =>
    by_cases h0 : st.totalBookings = 0
    · simp only [h0, if_true, if_pos]
      rfl
    · simp only [h0, if_false]
      rw [h2, except_ok_bind]
      have harith :
          st.successRate.getD (8/10) * (6/10)
              + max 0 (1 - (wl : ℚ) / 10) * (4/10) =
            (6/10) * st.successRate.getD (8/10)
              + (4/10) * max 0 (1 - (wl : ℚ) / 10) := by ring
      rw [show (pure : ℚ → Except PyErr ℚ) = Except.ok from rfl]
      rw [harith]

/-- C9: whenever the provider answers the stats and workload queries, the
performance score equals the spec's formula: `0.65` for absent stats or a
zero booking count, else
`min(0.6·success_rate + 0.4·max(0, 1 − workload/10), 1)` with the success
rate defaulting to `0.8` when undefined. -/
theorem performance_score_formula (db : DataProvider) (tid : String)
    (stOpt : Option TechStats) (wl : ℕ)
    (h1 : db.get_technician_stats tid = .ok stOpt)
    (h2 : db.get_technician_current_workload tid = .ok wl) :
    calcPerformanceScore db tid = .ok (performanceScoreSpec stOpt wl) :=
  calcPerformanceScore_spec_eq db tid stOpt wl h1 h2

/-- Witness for C9: a provider with 10 recorded bookings, success rate
0.9 and workload 1. -/
theorem performance_score_formula_witness :
    exProvider.get_technician_stats "tech-a" =
        .ok (some { totalBookings := 10, completedBookings := 9
                    successRate := some (9/10) }) ∧
    exProvider.get_technician_current_workload "tech-a" = .ok 1 ∧
    calcPerformanceScore exProvider "tech-a" =
      .ok (performanceScoreSpec
        (some { totalBookings := 10, completedBookings := 9
                successRate := some (9/10) }) 1) :=
  ⟨rfl, rfl, performance_score_formula exProvider "tech-a" _ 1 rfl rfl⟩

/-- C5: once the provider has answered the candidate fetch, `recommend`
never lets an exception escape; it yields a structured error result (whose
recommended id is absent by construction) exactly when the pool is empty or
every candidate's scoring raised; and whenever the pool is non-empty and at
least one candidate scores, a full recommendation is produced — a single
scoring failure only drops that candidate. -/
theorem recommend_error_conditions (w : Weights) (db : DataProvider)
    (b : Booking) (techs : List Technician)
    (hf : db.get_available_technicians = .ok techs) :
    (∀ e, recommend w db b ≠ .error e) ∧
    ((∃ msg, recommend w db b = .ok (.errorResult msg)) ↔
      (techs = [] ∨ ∀ t ∈ techs, ∃ e, scoreTech w db t b = .error e)) ∧
    ((techs ≠ [] ∧ ∃ t ∈ techs, ∃ s, scoreTech w db t b = .ok s) →
      ∃ r, recommend w db b = .ok (.success r)) := by
  have hrec := recommend_eq_core w db b techs hf
  refine ⟨?_, ?_, ?_⟩
  · intro e he
    rw [hrec] at he
    exact Except.noConfusion he
  · rw [hrec]
    simp only [Except.ok.injEq]
    exact recommendCore_errorResult_iff w db b techs
  · rintro ⟨hne, t, ht, s, hs⟩
    rw [hrec]
    cases hco : recommendCore w db b techs with
    | errorResult msg =>
      rcases (recommendCore_errorResult_iff w db b techs).mp ⟨msg, hco⟩ with
        h | h
      · exact absurd h hne
      · obtain ⟨e, he⟩ := h t ht
        rw [hs] at he
        exact Except.noConfusion he
    | success r => exact ⟨r, rfl⟩

/-- Witness for C5 over the two-technician fixture provider. -/
theorem recommend_error_conditions_witness :
    exProvider.get_available_technicians = .ok [exTechA, exTechB] ∧
    ((∀ e, recommend defaultWeights exProvider exBooking ≠ .error e) ∧
      ((∃ msg, recommend defaultWeights exProvider exBooking =
          .ok (.errorResult msg)) ↔
        ([exTechA, exTechB] = ([] : List Technician) ∨
          ∀ t ∈ [exTechA, exTechB], ∃ e,
            scoreTech defaultWeights exProvider t exBooking = .error e)) ∧
      (([exTechA, exTechB] ≠ ([] : List Technician) ∧
          ∃ t ∈ [exTechA, exTechB], ∃ s,
            scoreTech defaultWeights exProvider t exBooking = .ok s) →
        ∃ r, recommend defaultWeights exProvider exBooking =
          .ok (.success r))) :=
  ⟨rfl, recommend_error_conditions defaultWeights exProvider exBooking
    [exTechA, exTechB] rfl⟩

/-- C1: none of the four query operations is a method of `DotNetClient`
(its class body binds only `__init__` and `_get_db_connection`), so for
every weight configuration and booking, `recommend` over the provider wired
in at startup raises `AttributeError` at the very first call
`self.db.get_available_technicians()` — it returns neither a
recommendation nor a structured error result. -/
theorem dotnet_client_recommend_raises (w : Weights) (b : Booking) :
    ("get_available_technicians" ∉ dotNetClientClassMethods ∧
     "get_technician_stats" ∉ dotNetClientClassMethods ∧
     "get_technician_current_workload" ∉ dotNetClientClassMethods ∧
     "get_technician_reviews_avg" ∉ dotNetClientClassMethods) ∧
    recommend w dotNetClientProvider b =
      .error (.attributeError "DotNetClient" "get_available_technicians") :=
  ⟨by decide, rfl⟩

/-- C10: with the `Database` provider, a missing connection or a raised
query error both yield an empty candidate list, so `recommend` returns the
`No available technicians found` error result — the very outcome a
genuinely empty technician table produces. -/
theorem database_failure_indistinguishable (st : DatabaseState)
    (stats : String → Except PyErr (Option TechStats))
    (wl : String → Except PyErr ℕ) (rv : String → Except PyErr ℚ)
    (w : Weights) (b : Booking)
    (h : st.connected = false ∨ ∃ e, st.queryTechnicians = .error e) :
    database_get_available_technicians st = [] ∧
    recommend w (databaseProvider st stats wl rv) b =
      .ok (.errorResult "No available technicians found") ∧
    recommend w (databaseProvider st stats wl rv) b =
      recommend w
        { get_available_technicians := .ok []
          get_technician_stats := stats
          get_technician_current_workload := wl
          get_technician_reviews_avg := rv } b := by
  have hnil : database_get_available_technicians st = [] := by
    unfold database_get_available_technicians
    rcases h with h | ⟨e, he⟩
    · simp [h]
    · by_cases hc : st.connected = false
      · simp [hc]
      · simp only [hc, if_false]
        rw [he]
        simp
  refine ⟨hnil, ?_, ?_⟩
  · show (databaseProvider st stats wl rv).get_available_technicians >>=
        (fun technicians =>
          pure (recommendCore w (databaseProvider st stats wl rv) b technicians)) =
      .ok (.errorResult "No available technicians found")
    rw [show (databaseProvider st stats wl rv).get_available_technicians =
        .ok (database_get_available_technicians st) from rfl, hnil,
      except_ok_bind]
    rfl
  · show (databaseProvider st stats wl rv).get_available_technicians >>=
        (fun technicians =>
          pure (recommendCore w (databaseProvider st stats wl rv) b technicians)) =
      recommend w
        { get_available_technicians := .ok []
          get_technician_stats := stats
          get_technician_current_workload := wl
          get_technician_reviews_avg := rv } b
    rw [show (databaseProvider st stats wl rv).get_available_technicians =
        .ok (database_get_available_technicians st) from rfl, hnil,
      except_ok_bind]
    rfl

/-- Witness for C10: a connected database whose technician query raises. -/
theorem database_failure_indistinguishable_witness :
    (exFailedDB.connected = false ∨
      ∃ e, exFailedDB.queryTechnicians = .error e) ∧
    database_get_available_technicians exFailedDB = [] ∧
    recommend defaultWeights
        (databaseProvider exFailedDB (fun _ => .ok none) (fun _ => .ok 0)
          (fun _ => .ok 0)) exBooking =
      .ok (.errorResult "No available technicians found") ∧
    recommend defaultWeights
        (databaseProvider exFailedDB (fun _ => .ok none) (fun _ => .ok 0)
          (fun _ => .ok 0)) exBooking =
      recommend defaultWeights
        { get_available_technicians := .ok []
          get_technician_stats := fun _ => .ok none
          get_technician_current_workload := fun _ => .ok 0
          get_technician_reviews_avg := fun _ => .ok 0 } exBooking :=
  ⟨Or.inr ⟨"query failed", rfl⟩,
    database_failure_indistinguishable exFailedDB (fun _ => .ok none)
      (fun _ => .ok 0) (fun _ => .ok 0) defaultWeights exBooking
      (Or.inr ⟨"query failed", rfl⟩)⟩

/-- C3 counterexample: a technician whose `Specialization` column is empty
gets score 0.3, below the claimed universal floor of 0.5. -/
theorem specialization_floor_counterexample :
    specializationScore noTagTech [{ category := "engine" }] = 3/10 ∧
    ¬ (1/2 ≤ specializationScore noTagTech [{ category := "engine" }]) := by
  with_unfolding_all decide

/-- C3 amended: the specialization score is 0.95 iff a match fraction is
computed and equals 1; the 0.5 floor holds whenever the technician has at
least one specialization tag or the booking has no usable category; in the
remaining case (no tags but usable categories) the score is exactly 0.3. -/
theorem specialization_score_amended (t : Technician) (s : List Service) :
    (specializationScore t s = 95/100 ↔ matchFraction t s = some 1) ∧
    ((techSpecsList t ≠ [] ∨ (requestedCategories s).isEmpty) →
      1/2 ≤ specializationScore t s) ∧
    ((techSpecsList t = [] ∧ ¬(requestedCategories s).isEmpty) →
      specializationScore t s = 3/10) :=
  ⟨specializationScore_eq_095_iff t s,
    specializationScore_floor t s,
    fun h => specializationScore_noTags t s h.1 h.2⟩

/-- Witness for C3 (amended) on `exTechA`: the tag list is non-empty and
the floor holds. -/
theorem specialization_score_amended_witness :
    (techSpecsList exTechA ≠ [] ∨
      (requestedCategories [{ category := "Brakes" }]).isEmpty) ∧
    1/2 ≤ specializationScore exTechA [{ category := "Brakes" }] :=
  ⟨Or.inl (by with_unfolding_all decide),
    (specialization_score_amended exTechA [{ category := "Brakes" }]).2.1
      (Or.inl (by with_unfolding_all decide))⟩

/-- C2 counterexample: `perfectTech` satisfies every hypothesis of the
claim (full match, success rate 1 over 12 bookings, workload 0, rating 5),
yet its confidence under default weights is 0.98, not 1.0 — the perfect
specialization match maps to 0.95, not 1. -/
theorem perfect_tech_confidence_counterexample :
    matchFraction perfectTech exBooking.services = some 1 ∧
    perfectProvider.get_technician_stats "tech-p" =
      .ok (some { totalBookings := 12, completedBookings := 12
                  successRate := some 1 }) ∧
    perfectProvider.get_technician_current_workload "tech-p" = .ok 0 ∧
    perfectProvider.get_technician_reviews_avg "tech-p" = .ok 0 ∧
    perfectTech.rating = 5 ∧
    confidenceOf (scoreTech defaultWeights perfectProvider perfectTech
      exBooking) = some (98/100) ∧
    ¬ confidenceOf (scoreTech defaultWeights perfectProvider perfectTech
      exBooking) = some 1 := by
  with_unfolding_all decide

/-- C2 amended: under default weights, a technician with a perfect
specialization match, success rate 1 over a positive booking count,
workload 0 and effective rating 5 scores
`0.95·0.40 + 1·0.30 + 1·0.20 + 1·0.10 = 0.98`, so the computed confidence
is 0.98 (not 1.0). -/
theorem perfect_tech_confidence (db : DataProvider) (t : Technician)
    (b : Booking) (st : TechStats)
    (hmf : matchFraction t b.services = some 1)
    (hst : db.get_technician_stats t.technicianId = .ok (some st))
    (hn : ¬ st.totalBookings = 0)
    (hsr : st.successRate = some 1)
    (hwl : db.get_technician_current_workload t.technicianId = .ok 0)
    (hrv : db.get_technician_reviews_avg t.technicianId = .ok 0)
    (hrt : t.rating = 5) :
    scoreTech defaultWeights db t b = .ok
      { technician_id := t.technicianId, technician_name := t.displayName
        email := t.email, total_score := 98/100, confidence := 98/100
        scores := { specialization := 95/100, performance := 1, rating := 1
                    availability := 1 } } := by
  have hsp : specializationScore t b.services = 95/100 :=
    (specializationScore_eq_095_iff t b.services).mpr hmf
  have hperf : calcPerformanceScore db t.technicianId = .ok 1 := by
    rw [calcPerformanceScore_spec_eq db t.technicianId (some st) 0 hst hwl]
    simp only [performanceScoreSpec, if_neg hn, hsr, Option.getD_some,
      Nat.cast_zero, Except.ok.injEq]
    norm_num
  have hrat : calcRatingScore db t = .ok 1 := by
    unfold calcRatingScore
    rw [hrv, except_ok_bind]
    simp only [lt_self_iff_false, if_false, hrt]
    norm_num [except_pure_eq_ok]
  have hav : calcAvailabilityScore db t.technicianId b.location = .ok 1 := by
    unfold calcAvailabilityScore
    rw [hwl, except_ok_bind]
    rfl
  have hscores : calcScores db t b = .ok
      { specialization := 95/100, performance := 1, rating := 1
        availability := 1 } := by
    unfold calcScores
    rw [hperf, except_ok_bind, hrat, except_ok_bind, hav, except_ok_bind, hsp]
    rfl
  unfold scoreTech
  rw [hscores, except_ok_bind]
  have htot : totalScore defaultWeights
      { specialization := 95/100, performance := 1, rating := 1
        availability := 1 } = 98/100 := by
    unfold totalScore defaultWeights
    norm_num
  rw [htot]
  rfl

/-- Witness for C2 (amended) on `perfectTech` and `perfectProvider`. -/
theorem perfect_tech_confidence_witness :
    matchFraction perfectTech exBooking.services = some 1 ∧
    scoreTech defaultWeights perfectProvider perfectTech exBooking = .ok
      { technician_id := perfectTech.technicianId
        technician_name := perfectTech.displayName
        email := perfectTech.email, total_score := 98/100
        confidence := 98/100
        scores := { specialization := 95/100, performance := 1, rating := 1
                    availability := 1 } } :=
  ⟨by with_unfolding_all decide,
    perfect_tech_confidence perfectProvider perfectTech exBooking
      { totalBookings := 12, completedBookings := 12, successRate := some 1 }
      (by with_unfolding_all decide) rfl (by decide) rfl rfl rfl rfl⟩

/-- C4 counterexample: on the fixture pool the recommendation succeeds and
its `location_proximity` factor is 1, not the claimed constant 0.0 (the
source copies the winner's availability score into that field). -/
theorem location_proximity_counterexample :
    locationProximityOf (recommend defaultWeights exProvider exBooking) =
      some 1 ∧ (1 : ℚ) ≠ 0 := by
  with_unfolding_all decide

/-- C4 amended: in every successful recommendation, the factors block's
`location_proximity` equals the winning technician's availability score
rounded to two decimals (the availability-alias variant of the spec's
design notes), not the constant 0.0. -/
theorem location_proximity_is_availability (w : Weights) (db : DataProvider)
    (b : Booking) (techs : List Technician) (r : Recommendation)
    (hf : db.get_available_technicians = .ok techs)
    (hr : recommend w db b = .ok (.success r)) :
    ∃ best rest,
      sortByDesc ScoredTech.total_score (scoredPool w db b techs) =
        best :: rest ∧
      r.factors.location_proximity = pyRound2 best.scores.availability := by
  rw [recommend_eq_core w db b techs hf] at hr
  have hcore : recommendCore w db b techs = .success r := Except.ok.inj hr
  unfold recommendCore at hcore
  by_cases h1 : techs.isEmpty
  · rw [if_pos h1] at hcore
    exact RecommendOutcome.noConfusion hcore
  · rw [if_neg h1] at hcore
    by_cases h2 : (scoredPool w db b techs).isEmpty
    · rw [if_pos h2] at hcore
      exact RecommendOutcome.noConfusion hcore
    · rw [if_neg h2] at hcore
      cases hsort : sortByDesc ScoredTech.total_score (scoredPool w db b techs) with
      | nil =>
        rw [hsort] at hcore
        exact RecommendOutcome.noConfusion hcore
      | cons best rest =>
        rw [hsort] at hcore
        refine ⟨best, rest, rfl, ?_⟩
        rw [← RecommendOutcome.success.inj hcore]

/-- Witness for C4 (amended): the fixture recommendation, with the winner
heading the sorted pool. -/
theorem location_proximity_is_availability_witness :
    exProvider.get_available_technicians = .ok [exTechA, exTechB] ∧
    ∃ best rest,
      sortByDesc ScoredTech.total_score
          (scoredPool defaultWeights exProvider exBooking [exTechA, exTechB]) =
        best :: rest ∧
      exRecommendation.factors.location_proximity =
        pyRound2 best.scores.availability :=
  ⟨rfl, location_proximity_is_availability defaultWeights exProvider exBooking
    [exTechA, exTechB] exRecommendation rfl (by with_unfolding_all decide)⟩

end AITech
